import Mathlib

/-!
Shallow embedding of `animate/utils/util.py` from MegFaceAnimate.

Tensors are modelled element-wise over `ℚ` (a latent is a single rational,
or a function `ℕ → ℕ → ℚ` for an image frame); floating-point real
operations with no rational counterpart (`sqrt`, `acos`, `sin`, bilinear
interpolation) are passed in as explicit function parameters, so every
definition stays computable.  Python floor division `//` is `Int.fdiv`
on integers and `⌊·/·⌋` on floats (both floor), and fallible tensor
indexing returns `Option`.
-/

namespace MegFace

/-- Python indexing `l[i]` on a 1-D tensor/list: non-negative indices are
positional, negative indices wrap once from the end, anything further out
raises `IndexError` (modelled as `none`). -/
def pyGet (l : List ℤ) (i : ℤ) : Option ℤ :=
  if 0 ≤ i then l.get? i.toNat
  else if i + l.length < 0 then none
  else l.get? (i + l.length).toNat

/-- The slice of a DDIM scheduler object that `next_step` / `ddim_loop`
read: configuration integers, the `alphas_cumprod` table (a total lookup,
as tensor rows hold one rational each), the configured
`final_alpha_cumprod`, and the `timesteps` tensor. -/
structure DDIMSched where
  num_train_timesteps : ℤ
  num_inference_steps : ℤ
  alphas_cumprod : ℤ → ℚ
  final_alpha_cumprod : ℚ
  timesteps : List ℤ

/-- `next_step` from util.py (lines 121-131), element-wise over `ℚ`;
`x ** 0.5` is the explicit `sqrtFn` parameter. -/
def next_step (sqrtFn : ℚ → ℚ) (sched : DDIMSched)
    (model_output : ℚ) (timestep : ℤ) (sample : ℚ) : ℚ :=
  let ts : ℤ :=
    min (timestep - sched.num_train_timesteps.fdiv sched.num_inference_steps) 999
  let next_timestep : ℤ := timestep
  let alpha_prod_t : ℚ :=
    if 0 ≤ ts then sched.alphas_cumprod ts else sched.final_alpha_cumprod
  let alpha_prod_t_next : ℚ := sched.alphas_cumprod next_timestep
  let beta_prod_t : ℚ := 1 - alpha_prod_t
  let next_original_sample : ℚ :=
    (sample - sqrtFn beta_prod_t * model_output) / sqrtFn alpha_prod_t
  let next_sample_direction : ℚ := sqrtFn (1 - alpha_prod_t_next) * model_output
  sqrtFn alpha_prod_t_next * next_original_sample + next_sample_direction

/-- The DDIM forward-inversion recurrence exactly as the spec words it:
`tp = min(t - num_train_timesteps // num_inference_steps, 999)`, alpha
looked up at `tp` (falling back to `final_alpha_cumprod` when `tp < 0`)
and at `t`, result
`sqrt(alpha_t) * ((sample - sqrt(1 - alpha_tp) * noise) / sqrt(alpha_tp))
 + sqrt(1 - alpha_t) * noise`. -/
def next_step_specFormula (sqrtFn : ℚ → ℚ) (sched : DDIMSched)
    (noise : ℚ) (t : ℤ) (sample : ℚ) : ℚ :=
  let tp : ℤ :=
    min (t - sched.num_train_timesteps.fdiv sched.num_inference_steps) 999
  let alpha_tp : ℚ :=
    if tp < 0 then sched.final_alpha_cumprod else sched.alphas_cumprod tp
  let alpha_t : ℚ := sched.alphas_cumprod t
  sqrtFn alpha_t * ((sample - sqrtFn (1 - alpha_tp) * noise) / sqrtFn alpha_tp)
    + sqrtFn (1 - alpha_t) * noise

/-- The loop body iterations of `ddim_loop` (util.py lines 145-149),
already past index `i`, with `k` iterations left.  Each iteration reads
`t = timesteps[len(timesteps) - i - 1]` (Python indexing, so an
out-of-range access is `none`), queries the denoising network
(`get_noise_pred_single`, abstracted as the parameter `noisePred` which
closes over the conditional embedding), steps with `next_step`, and
appends the new latent. -/
def ddimLoopGo (sqrtFn : ℚ → ℚ) (sched : DDIMSched) (noisePred : ℚ → ℤ → ℚ) :
    ℕ → ℕ → ℚ → Option (List ℚ)
  | _, 0, _ => some []
  | i, k + 1, latent =>
    match pyGet sched.timesteps ((sched.timesteps.length : ℤ) - i - 1) with
    | none => none
    | some t =>
      let noise_pred := noisePred latent t
      let latent1 := next_step sqrtFn sched noise_pred t latent
      (ddimLoopGo sqrtFn sched noisePred (i + 1) k latent1).map
        fun rest => latent1 :: rest

/-- `ddim_loop` from util.py (lines 139-150): starts from
`all_latent = [latent]` and runs `num_inv_steps` iterations of the body;
`latent.clone().detach()` is the identity on the value. -/
def ddim_loop (sqrtFn : ℚ → ℚ) (sched : DDIMSched) (noisePred : ℚ → ℤ → ℚ)
    (latent : ℚ) (num_inv_steps : ℕ) : Option (List ℚ) :=
  (ddimLoopGo sqrtFn sched noisePred 0 num_inv_steps latent).map
    fun rest => latent :: rest

/-- `ddim_inversion` from util.py (lines 153-156): returns `ddim_loop`
unchanged. -/
def ddim_inversion (sqrtFn : ℚ → ℚ) (sched : DDIMSched)
    (noisePred : ℚ → ℤ → ℚ) (video_latent : ℚ) (num_inv_steps : ℕ) :
    Option (List ℚ) :=
  ddim_loop sqrtFn sched noisePred video_latent num_inv_steps

/-- `linear` from util.py (lines 41-42), element-wise over vectors
`Fin n → ℚ`: `(1.0 - t) * v1 + t * v2`. -/
def linear {n : ℕ} (v1 v2 : Fin n → ℚ) (t : ℚ) : Fin n → ℚ :=
  fun i => (1 - t) * v1 i + t * v2 i

/-- The dot product of the unit-normalised copies of `v0` and `v1`
computed inside `slerp`: `u0 = v0 / v0.norm()`, `u1 = v1 / v1.norm()`,
`dot = (u0 * u1).sum()`, with `norm = sqrt(sum of squares)` realised by
the explicit `sqrtFn` parameter. -/
def slerpDot {n : ℕ} (sqrtFn : ℚ → ℚ) (v0 v1 : Fin n → ℚ) : ℚ :=
  ∑ i, (v0 i / sqrtFn (∑ j, v0 j ^ 2)) * (v1 i / sqrtFn (∑ j, v1 j ^ 2))

/-- `slerp` from util.py (lines 44-54), element-wise over `Fin n → ℚ`;
the float operations `sqrt`, `acos`, `sin` are the explicit parameters
`sqrtFn`, `acosFn`, `sinFn`, and `DOT_THRESHOLD` keeps its default
`0.9995`. -/
def slerp {n : ℕ} (sqrtFn acosFn sinFn : ℚ → ℚ) (v0 v1 : Fin n → ℚ)
    (t : ℚ) : Fin n → ℚ :=
  let dot := slerpDot sqrtFn v0 v1
  if |dot| > 9995 / 10000 then
    fun i => (1 - t) * v0 i + t * v1 i
  else
    let omega := acosFn dot
    fun i =>
      (sinFn ((1 - t) * omega) * v0 i + sinFn (t * omega) * v1 i) /
        sinFn omega

/-- A checkpoint / parameter state dict: dotted parameter names mapped to
(element-wise `ℚ`) tensors, kept as an ordered association list. -/
abbrev StateDict := List (String × ℚ)

/-- Dictionary lookup on a state dict. -/
def sdLookup (sd : StateDict) (k : String) : Option ℚ :=
  (sd.find? fun p => p.1 == k).map fun p => p.2

/-- `k in dict` on a state dict. -/
def sdHasKey (sd : StateDict) (k : String) : Bool :=
  sd.any fun p => p.1 == k

/-- The result of `torch.load` on a checkpoint file: either a dict
wrapped under a `"state_dict"` key, or the flat dict itself. -/
inductive TorchCkpt where
  | wrapped (sd : StateDict)
  | flat (sd : StateDict)

/-- `d["state_dict"] if "state_dict" in d else d` (util.py lines
174-175 and 219-220). -/
def unwrapCkpt : TorchCkpt → StateDict
  | .wrapped sd => sd
  | .flat sd => sd

/-- Does `l` start with `pat`? -/
def listStartsWith : List Char → List Char → Bool
  | [], _ => true
  | _ :: _, [] => false
  | p :: ps, c :: cs => p == c && listStartsWith ps cs

/-- Does `pat` occur as a contiguous run somewhere in `l`? -/
def listHasSub (pat : List Char) : List Char → Bool
  | [] => pat.isEmpty
  | c :: cs => listStartsWith pat (c :: cs) || listHasSub pat cs

/-- Python substring containment `pat in s`. -/
def containsKeySub (s pat : String) : Bool :=
  listHasSub pat.data s.data

/-- `nn.Module.load_state_dict(sd, strict=False)`: every model parameter
whose name is in `sd` is overwritten with the checkpoint value; returns
the new parameters together with `missing` (model keys absent from `sd`)
and `unexpected` (checkpoint keys absent from the model). -/
def load_state_dict (model sd : StateDict) :
    StateDict × List String × List String :=
  ( model.map fun p =>
      match sdLookup sd p.1 with
      | some w => (p.1, w)
      | none => p
  , (model.filter fun p => !(sdHasKey sd p.1)).map fun p => p.1
  , (sd.filter fun p => !(sdHasKey model p.1)).map fun p => p.1 )

/-- The parameter state of the animation pipeline touched by
`load_weights`: the denoising UNet, the VAE and the text encoder. -/
structure AnimationPipeline where
  unet : StateDict
  vae : StateDict
  text_encoder : StateDict
deriving DecidableEq

/-- The motion-module filtering of util.py line 176-177: keep exactly the
checkpoint entries whose name contains `"motion_modules."`. -/
def motionFiltered (loadFile : String → TorchCkpt) (path : String) :
    StateDict :=
  (unwrapCkpt (loadFile path)).filter
    fun p => containsKeySub p.1 "motion_modules."

/-- `load_weights` from util.py (lines 159-224).  File reading
(`torch.load`, `safe_open`) and the conversion routines living in other
modules (`convert_ldm_*`, `convert_lora`,
`convert_motion_lora_ckpt_to_diffusers`) are explicit function
parameters; step 1 filters the motion-module checkpoint to keys
containing `"motion_modules."`, loads non-strictly and asserts that no
unexpected key remains, and the LoRA step asserts the `.safetensors`
suffix. -/
def load_weights (loadFile : String → TorchCkpt)
    (loadSafetensors : String → StateDict)
    (applyDreambooth : AnimationPipeline → String → AnimationPipeline)
    (applyLora : AnimationPipeline → StateDict → ℚ → AnimationPipeline)
    (applyMotionLora : AnimationPipeline → StateDict → ℚ → AnimationPipeline)
    (animation_pipeline : AnimationPipeline)
    (motion_module_path : String)
    (motion_module_lora_configs : List (String × ℚ))
    (dreambooth_model_path : String)
    (lora_model_path : String)
    (lora_alpha : ℚ) : Except String AnimationPipeline :=
  let unet_state_dict : StateDict :=
    if motion_module_path ≠ "" then motionFiltered loadFile motion_module_path
    else []
  let loaded := load_state_dict animation_pipeline.unet unet_state_dict
  if loaded.2.2.length ≠ 0 then
    Except.error "assert len(unexpected) == 0"
  else
    let pipe1 := { animation_pipeline with unet := loaded.1 }
    let pipe2 :=
      if dreambooth_model_path ≠ "" then applyDreambooth pipe1 dreambooth_model_path
      else pipe1
    if lora_model_path ≠ "" ∧ ¬ lora_model_path.endsWith ".safetensors" then
      Except.error "assert lora_model_path.endswith safetensors"
    else
      let pipe3 :=
        if lora_model_path ≠ "" then
          applyLora pipe2 (loadSafetensors lora_model_path) lora_alpha
        else pipe2
      let pipe4 := motion_module_lora_configs.foldl
        (fun p cfg => applyMotionLora p (unwrapCkpt (loadFile cfg.1)) cfg.2)
        pipe3
      Except.ok pipe4

/-- Python floor division `q // 2` (floor for both int and float
operands). -/
def fdiv2 (q : ℚ) : ℚ := ⌊q / 2⌋

/-- The rectangle-squaring step shared by `crop_and_resize_tensor`
(util.py lines 328-338) and `crop_move_face` (lines 386-396): the
shorter side is padded symmetrically by `(long - short) // 2` to match
the longer one. -/
def squareRect (l t r b : ℚ) : ℚ × ℚ × ℚ × ℚ :=
  let face_w := r - l
  let face_h := b - t
  if face_w < face_h then
    (l - fdiv2 (face_h - face_w), t, r + fdiv2 (face_h - face_w), b)
  else
    (l, t - fdiv2 (face_w - face_h), r, b + fdiv2 (face_w - face_h))

/-- The clipping step (util.py line 340 / 403):
`max(left, 0), max(top, 0), min(right, width), min(bottom, height)`. -/
def clipRect (width height : ℚ) (rect : ℚ × ℚ × ℚ × ℚ) : ℚ × ℚ × ℚ × ℚ :=
  (max rect.1 0, max rect.2.1 0, min rect.2.2.1 width, min rect.2.2.2 height)

/-- The crop rectangle `crop_and_resize_tensor` derives from an explicit
face rectangle (lines 327-340). -/
def crop_and_resize_rect (width height l t r b : ℚ) : ℚ × ℚ × ℚ × ℚ :=
  clipRect width height (squareRect l t r b)

/-- The crop rectangle `crop_move_face` derives from an explicit face
rectangle (lines 385-403), including the optional head extension
`top -= 0.4 * delta_hight; bottom += 0.1 * delta_hight`. -/
def crop_move_rect (width height : ℚ) (is_get_head : Bool)
    (l t r b : ℚ) : ℚ × ℚ × ℚ × ℚ :=
  let s := squareRect l t r b
  let s2 :=
    if is_get_head then
      let delta_hight := s.2.2.2 - s.2.1
      (s.1, s.2.1 - (2 / 5) * delta_hight, s.2.2.1,
        s.2.2.2 + (1 / 10) * delta_hight)
    else s
  clipRect width height s2

/-- Bounds invariant for a derived crop rectangle `(l, t, r, b)`: inside
the frame with strictly positive width and height. -/
def rectInFrame (width height : ℚ) (rect : ℚ × ℚ × ℚ × ℚ) : Prop :=
  0 ≤ rect.1 ∧ rect.1 < rect.2.2.1 ∧ rect.2.2.1 ≤ width ∧
  0 ≤ rect.2.1 ∧ rect.2.1 < rect.2.2.2 ∧ rect.2.2.2 ≤ height

/-- `int(q)` on an already clipped (hence non-negative) slice
coordinate. -/
def sliceIdx (q : ℚ) : ℕ := (⌊q⌋).toNat

/-- The `frame_cropped` stage of `crop_move_face` (lines 405-414): a
zero tensor of the frame shape with the face window copied back in
place (`crop_rect=None` uses the fixed window `(0, 0, 2, 2)`); slicing
clamps to the frame shape. -/
def crop_move_cropped (frame : ℕ → ℕ → ℚ) (height width : ℕ)
    (crop_rect : Option (ℚ × ℚ × ℚ × ℚ)) (is_get_head : Bool) :
    ℕ → ℕ → ℚ :=
  let rect : ℚ × ℚ × ℚ × ℚ :=
    match crop_rect with
    | some (l, t, r, b) => crop_move_rect width height is_get_head l t r b
    | none => (0, 0, 2, 2)
  fun y x =>
    if sliceIdx rect.2.1 ≤ y ∧ y < min (sliceIdx rect.2.2.2) height ∧
        sliceIdx rect.1 ≤ x ∧ x < min (sliceIdx rect.2.2.1) width then
      frame y x
    else 0

/-- The boolean patch mask built by the loops of lines 423-429: pixel
`(y, x)` is masked when its patch `(i, j)` of the 16 x 16 grid drew
below `mask_rate`. -/
def maskAt (rectDraw : ℕ → ℕ → ℚ) (mask_rate : ℚ) (patch_size : ℕ)
    (y x : ℕ) : Bool :=
  decide (∃ i : Fin 16, ∃ j : Fin 16,
    rectDraw i j < mask_rate ∧
    patch_size * i ≤ y ∧ y < patch_size * (i + 1) ∧
    patch_size * j ≤ x ∧ x < patch_size * (j + 1))

/-- `crop_move_face` from util.py (lines 371-432).  Bilinear resizing is
the external parameter `interp`; the random draws
`random.uniform(0, 1)` and `torch.rand(16, 16)` are the parameters
`curDraw` and `rectDraw` (both uniform on `[0, 1)`).  The mask is
applied when `mask_rate != 0` and `curDraw < use_mask_rate`, with
`patch_size = target_height // 16`. -/
def crop_move_face
    (interp : (ℕ → ℕ → ℚ) → ℕ → ℕ → ℕ → ℕ → (ℕ → ℕ → ℚ))
    (frame : ℕ → ℕ → ℚ) (height width : ℕ)
    (crop_rect : Option (ℚ × ℚ × ℚ × ℚ))
    (target_height target_width : ℕ)
    (use_mask_rate mask_rate : ℚ) (is_get_head : Bool)
    (curDraw : ℚ) (rectDraw : ℕ → ℕ → ℚ) : ℕ → ℕ → ℚ :=
  let frame_cropped := crop_move_cropped frame height width crop_rect is_get_head
  let frame_resized := interp frame_cropped height width target_height target_width
  if mask_rate ≠ 0 ∧ curDraw < use_mask_rate then
    let patch_size := target_height / 16
    fun y x =>
      if maskAt rectDraw mask_rate patch_size y x ∧
          y < target_height ∧ x < target_width then 0
      else frame_resized y x
  else frame_resized

/-- The fps computation of `save_videos_grid` (util.py lines 77-78): a
supplied fps is used as given; with `fps=None` it is
`video_length // 2` when there is more than one frame, else `1`
(`video_length` is the `t` axis after the `b c t h w -> t b c h w`
rearrange). -/
def save_videos_grid_fps (fps : Option ℕ) (video_length : ℕ) : ℕ :=
  match fps with
  | some f => f
  | none => if video_length > 1 then video_length / 2 else 1

/-- The default center-square branch of `crop_and_resize_tensor`
(lines 358-363), over `ℚ` coordinates. -/
def centerSquareRect (width height : ℚ) : ℚ × ℚ × ℚ × ℚ :=
  let short_edge := min height width
  let left := (⌊(width - short_edge) / 2⌋ : ℚ)
  let top := (⌊(height - short_edge) / 2⌋ : ℚ)
  (left, top, left + short_edge, top + short_edge)

/-- The per-frame detection lookup of `crop025_face` (lines 505-510):
collect every detection whose `image_ids` entry equals the frame index
`i`, then read `face_rects[0]`; an empty list is the uncaught
`IndexError`, modelled as `none`. -/
def crop025_frame_rect (image_ids : List ℕ)
    (rects : List (ℚ × ℚ × ℚ × ℚ)) (i : ℕ) :
    Option (ℚ × ℚ × ℚ × ℚ) :=
  (((image_ids.zip rects).filter fun p => p.1 == i).map fun p => p.2).head?

/-- The union bounding box fold of `crop025_face` (lines 502-515),
starting from `l, t, r, b = W, H, 0, 0`. -/
def crop025_union (L : ℕ) (image_ids : List ℕ)
    (rects : List (ℚ × ℚ × ℚ × ℚ)) (width height : ℚ) :
    Option (ℚ × ℚ × ℚ × ℚ) :=
  (List.range L).foldl
    (fun acc i => do
      let u ← acc
      let fr ← crop025_frame_rect image_ids rects i
      pure (min fr.1 u.1, min fr.2.1 u.2.1,
            max u.2.2.1 fr.2.2.1, max u.2.2.2 fr.2.2.2))
    (some (width, height, 0, 0))

/-- `get_rect_length` from util.py (lines 483-488): the side of the
largest centered square inside the frame, with the rectangle center. -/
def get_rect_length (l t r b width height : ℚ) : ℚ × ℚ × ℚ :=
  let center_x : ℚ := ⌊(l + r) / 2⌋
  let center_y : ℚ := ⌊(t + b) / 2⌋
  let distance_to_edge :=
    min (min center_x center_y) (min (width - center_x) (height - center_y))
  (2 * distance_to_edge, center_x, center_y)

/-- `crop025_face` from util.py (lines 490-529), up to the crop
rectangle handed to `crop_and_resize_tensor`; the detector result is the
pair `image_ids`/`rects`, `L` is the number of frames, and `none` models
the uncaught per-frame `IndexError`. -/
def crop025_face (L : ℕ) (image_ids : List ℕ)
    (rects : List (ℚ × ℚ × ℚ × ℚ)) (width height : ℚ)
    (crop_face_center : Bool) : Option (ℚ × ℚ × ℚ × ℚ) :=
  if image_ids.isEmpty || !crop_face_center then
    some (centerSquareRect width height)
  else
    match crop025_union L image_ids rects width height with
    | none => none
    | some u =>
      let dh := u.2.2.2 - u.2.1
      let dw := u.2.2.1 - u.1
      let rcl := get_rect_length u.1 u.2.1 u.2.2.1 u.2.2.2 width height
      let half : ℚ := ⌊rcl.1 / 2⌋
      some (rcl.2.1 - min half (dw * (3 / 5)),
            rcl.2.2 - min half (dh * 1),
            rcl.2.1 + min half (dw * (3 / 5)),
            rcl.2.2 + min half (dh * (3 / 5)))

/-- A concrete frame with pairwise distinct pixel values. -/
def frameAt : ℕ → ℕ → ℚ := fun y x => 10 * y + x

/-- A concrete motion-module checkpoint (wrapped under `"state_dict"`)
holding one motion-module key. -/
def ckptMM : TorchCkpt := .wrapped [("a.motion_modules.w", 1)]

/-- A file loader that returns `ckptMM` for every path. -/
def loadFileMM : String → TorchCkpt := fun _ => ckptMM

/-- A pipeline whose UNet lacks the motion-module key of `ckptMM`. -/
def pipeNoMM : AnimationPipeline :=
  { unet := [("other.w", 2)], vae := [], text_encoder := [] }

/-- A pipeline whose UNet has the motion-module key of `ckptMM`, plus a
key missing from the checkpoint. -/
def pipeWithMM : AnimationPipeline :=
  { unet := [("a.motion_modules.w", 5), ("other.w", 2)], vae := [],
    text_encoder := [] }

/-- A concrete scheduler with a single timestep, as produced by
`set_timesteps(1)` on a 1000-step schedule. -/
def schedOneStep : DDIMSched :=
  { num_train_timesteps := 1000
    num_inference_steps := 1
    alphas_cumprod := fun _ => 1 / 2
    final_alpha_cumprod := 1 / 2
    timesteps := [999] }

end MegFace

namespace MegFace

/-- C2: `next_step` is pure (it is a function of its four arguments) and
computes exactly the standard DDIM forward-inversion recurrence stated in
the spec, for every choice of square-root realisation, scheduler, noise
prediction, timestep and sample. -/
theorem c2_next_step_recurrence (sqrtFn : ℚ → ℚ) (sched : DDIMSched)
    (noise : ℚ) (t : ℤ) (sample : ℚ) :
    next_step sqrtFn sched noise t sample =
      next_step_specFormula sqrtFn sched noise t sample := by
  unfold next_step next_step_specFormula
  dsimp only
  by_cases h :
      0 ≤ min (t - sched.num_train_timesteps.fdiv sched.num_inference_steps) 999
  · rw [if_pos h, if_neg (by omega)]
  · rw [if_neg h, if_pos (by omega)]

/-- Helper: Python indexing succeeds exactly on the wrap-once range
`-len ≤ i < len`. -/
theorem pyGet_isSome (l : List ℤ) (i : ℤ)
    (h1 : -(l.length : ℤ) ≤ i) (h2 : i < l.length) :
    ∃ t, pyGet l i = some t := by
  unfold pyGet
  by_cases h0 : 0 ≤ i
  · rw [if_pos h0]
    have hlt : i.toNat < l.length := by omega
    exact ⟨l.get ⟨i.toNat, hlt⟩, List.get?_eq_get hlt⟩
  · rw [if_neg h0, if_neg (by omega)]
    have hlt : (i + l.length).toNat < l.length := by omega
    exact ⟨l.get ⟨(i + l.length).toNat, hlt⟩, List.get?_eq_get hlt⟩

/-- Helper: the loop body never hits an index error while every read
stays in Python's wrap-once window, and then yields exactly `k` latents. -/
theorem ddimLoopGo_length (sqrtFn : ℚ → ℚ) (sched : DDIMSched)
    (noisePred : ℚ → ℤ → ℚ) :
    ∀ (k i : ℕ) (latent : ℚ), i + k ≤ 2 * sched.timesteps.length →
      ∃ l, ddimLoopGo sqrtFn sched noisePred i k latent = some l ∧
        l.length = k := by
  intro k
  induction k with
  | zero => intro i latent _; exact ⟨[], rfl, rfl⟩
  | succ k ih =>
    intro i latent hik
    obtain ⟨t, ht⟩ :=
      pyGet_isSome sched.timesteps ((sched.timesteps.length : ℤ) - i - 1)
        (by omega) (by omega)
    obtain ⟨rest, hrest, hlen⟩ :=
      ih (i + 1)
        (next_step sqrtFn sched (noisePred latent t) t latent) (by omega)
    refine ⟨next_step sqrtFn sched (noisePred latent t) t latent :: rest, ?_, ?_⟩
    · unfold ddimLoopGo
      rw [ht]
      dsimp only
      rw [hrest]
      rfl
    · simp [hlen]

/-- C1 counterexample: with a scheduler holding one timestep (as after
`set_timesteps(1)`) and `num_inv_steps = 3`, the third read is
`timesteps[-2]` on a length-1 tensor, an uncaught `IndexError`; no
sequence of 4 latents is returned, refuting the claim for every
`N ≥ 0`. -/
theorem c1_ddim_loop_counterexample :
    ddim_loop (fun q => q) schedOneStep (fun _ _ => 0) 0 3 = none := by
  decide

/-- C1 (amended): whenever every loop read stays in range, i.e.
`num_inv_steps ≤ 2 * len(timesteps)` (Python indexing wraps once from the
end), `ddim_loop` returns a sequence of exactly `num_inv_steps + 1`
latents whose first element is the input latent unchanged. -/
theorem c1_ddim_loop_length (sqrtFn : ℚ → ℚ) (sched : DDIMSched)
    (noisePred : ℚ → ℤ → ℚ) (latent : ℚ) (num_inv_steps : ℕ)
    (h : num_inv_steps ≤ 2 * sched.timesteps.length) :
    ∃ l, ddim_loop sqrtFn sched noisePred latent num_inv_steps = some l ∧
      l.length = num_inv_steps + 1 ∧ l.head? = some latent := by
  obtain ⟨l0, hl0, hlen⟩ :=
    ddimLoopGo_length sqrtFn sched noisePred num_inv_steps 0 latent
      (by omega)
  refine ⟨latent :: l0, ?_, by simp [hlen], rfl⟩
  unfold ddim_loop
  rw [hl0]
  rfl

/-- C1 witness: the amended theorem at the concrete one-timestep
scheduler with `num_inv_steps = 2`. -/
theorem c1_ddim_loop_length_witness :
    ∃ l, ddim_loop (fun q => q) schedOneStep (fun _ _ => 0) (37 / 2) 2 =
        some l ∧ l.length = 2 + 1 ∧ l.head? = some (37 / 2) :=
  c1_ddim_loop_length (fun q => q) schedOneStep (fun _ _ => 0) (37 / 2) 2
    (by decide)

/-- C3: for non-zero vectors, whenever the dot product of the
unit-normalised vectors exceeds `0.9995` in absolute value, `slerp`
returns exactly the linear interpolation `(1-t)*v0 + t*v1`, i.e. the
`linear` function of util.py, for every realisation of the float
operations. -/
theorem c3_slerp_parallel_is_linear {n : ℕ}
    (sqrtFn acosFn sinFn : ℚ → ℚ) (v0 v1 : Fin n → ℚ) (t : ℚ)
    (_hv0 : ∃ i, v0 i ≠ 0) (_hv1 : ∃ i, v1 i ≠ 0)
    (hdot : |slerpDot sqrtFn v0 v1| > 9995 / 10000) :
    slerp sqrtFn acosFn sinFn v0 v1 t = linear v0 v1 t := by
  unfold slerp linear
  rw [if_pos hdot]

/-- C3 witness: two copies of the unit vector `(1,0)` under the identity
square root have normalised dot `1 > 0.9995`, and slerp on them is the
linear interpolation. -/
theorem c3_slerp_parallel_witness :
    slerp (fun q => q) (fun q => q) (fun q => q)
        (![1, 0] : Fin 2 → ℚ) (![1, 0] : Fin 2 → ℚ) (1 / 3) =
      linear (![1, 0] : Fin 2 → ℚ) (![1, 0] : Fin 2 → ℚ) (1 / 3) :=
  c3_slerp_parallel_is_linear (fun q => q) (fun q => q) (fun q => q)
    _ _ (1 / 3) ⟨0, by norm_num⟩ ⟨0, by norm_num⟩
    (by norm_num [slerpDot, Fin.sum_univ_two])

/-- C4: with a non-empty motion-module path, if the filtered checkpoint
holds a key (containing `"motion_modules."`) that the UNet does not have,
`load_weights` fails with the uncaught assertion; and if every filtered
key is a UNet key, the non-strict load succeeds even though the UNet may
have keys missing from the checkpoint. -/
theorem c4_load_weights_unexpected_key (loadFile : String → TorchCkpt)
    (loadSafetensors : String → StateDict)
    (applyDreambooth : AnimationPipeline → String → AnimationPipeline)
    (applyLora applyMotionLora :
      AnimationPipeline → StateDict → ℚ → AnimationPipeline)
    (pipe : AnimationPipeline) (path : String)
    (configs : List (String × ℚ)) (dbPath loraPath : String) (alpha : ℚ)
    (hpath : path ≠ "") :
    ((∃ p ∈ motionFiltered loadFile path, sdHasKey pipe.unet p.1 = false) →
      load_weights loadFile loadSafetensors applyDreambooth applyLora
          applyMotionLora pipe path configs dbPath loraPath alpha =
        Except.error "assert len(unexpected) == 0") ∧
    ((∀ p ∈ motionFiltered loadFile path, sdHasKey pipe.unet p.1 = true) →
      load_weights loadFile loadSafetensors applyDreambooth applyLora
          applyMotionLora pipe path [] "" "" alpha =
        Except.ok { pipe with
          unet := (load_state_dict pipe.unet
            (motionFiltered loadFile path)).1 }) := by
  constructor
  · rintro ⟨p, hmem, hkey⟩
    have hmem2 : p.1 ∈
        (load_state_dict pipe.unet (motionFiltered loadFile path)).2.2 := by
      unfold load_state_dict
      exact List.mem_map_of_mem _ (List.mem_filter.mpr ⟨hmem, by simp [hkey]⟩)
    have hne :
        (load_state_dict pipe.unet (motionFiltered loadFile path)).2.2.length
          ≠ 0 := by
      have h0 := List.ne_nil_of_mem hmem2
      simpa [List.length_eq_zero] using h0
    simp [load_weights, hpath, hne]
  · intro hall
    have hnil : (motionFiltered loadFile path).filter
        (fun p => !(sdHasKey pipe.unet p.1)) = [] :=
      List.filter_eq_nil_iff.mpr fun p hp => by simp [hall p hp]
    have hlen :
        (load_state_dict pipe.unet (motionFiltered loadFile path)).2.2.length
          = 0 := by
      simp [load_state_dict, hnil]
    simp [load_weights, hpath, hlen]

/-- C4 witness: loading `ckptMM` into `pipeNoMM` (which lacks its key)
aborts, while loading it into `pipeWithMM` succeeds and overwrites only
the matching key, tolerating the missing key `other.w`. -/
theorem c4_load_weights_witness :
    load_weights loadFileMM (fun _ => []) (fun p _ => p) (fun p _ _ => p)
        (fun p _ _ => p) pipeNoMM "mm.ckpt" [] "" "" (4 / 5) =
      Except.error "assert len(unexpected) == 0" ∧
    load_weights loadFileMM (fun _ => []) (fun p _ => p) (fun p _ _ => p)
        (fun p _ _ => p) pipeWithMM "mm.ckpt" [] "" "" (4 / 5) =
      Except.ok { unet := [("a.motion_modules.w", 1), ("other.w", 2)],
                  vae := [], text_encoder := [] } := by
  constructor
  · exact (c4_load_weights_unexpected_key loadFileMM (fun _ => [])
      (fun p _ => p) (fun p _ _ => p) (fun p _ _ => p) pipeNoMM "mm.ckpt"
      [] "" "" (4 / 5) (by decide)).1 (by decide)
  · have h := (c4_load_weights_unexpected_key loadFileMM (fun _ => [])
      (fun p _ => p) (fun p _ _ => p) (fun p _ _ => p) pipeWithMM "mm.ckpt"
      [] "" "" (4 / 5) (by decide)).2 (by decide)
    rw [h]
    rfl

/-- C5: `load_weights` with an empty motion-module path and every other
source empty merges an empty dict, which is the identity on the model
parameters: the pipeline is returned unchanged. -/
theorem c5_load_weights_empty_identity (loadFile : String → TorchCkpt)
    (loadSafetensors : String → StateDict)
    (applyDreambooth : AnimationPipeline → String → AnimationPipeline)
    (applyLora applyMotionLora :
      AnimationPipeline → StateDict → ℚ → AnimationPipeline)
    (pipe : AnimationPipeline) (alpha : ℚ) :
    load_weights loadFile loadSafetensors applyDreambooth applyLora
        applyMotionLora pipe "" [] "" "" alpha = Except.ok pipe := by
  simp [load_weights, load_state_dict, sdLookup]

/-- Helper: squaring only moves edges outward, so the squared rectangle
contains the input rectangle. -/
theorem squareRect_contains (l t r b : ℚ) :
    (squareRect l t r b).1 ≤ l ∧ r ≤ (squareRect l t r b).2.2.1 ∧
    (squareRect l t r b).2.1 ≤ t ∧ b ≤ (squareRect l t r b).2.2.2 := by
  unfold squareRect fdiv2
  dsimp only
  split_ifs with h
  · have h2 : (0 : ℤ) ≤ ⌊(b - t - (r - l)) / 2⌋ :=
      Int.floor_nonneg.mpr (by linarith)
    have h3 : (0 : ℚ) ≤ ((⌊(b - t - (r - l)) / 2⌋ : ℤ) : ℚ) := by
      exact_mod_cast h2
    exact ⟨by dsimp; linarith, by dsimp; linarith, by dsimp; exact le_rfl,
      by dsimp; exact le_rfl⟩
  · have h2 : (0 : ℤ) ≤ ⌊(r - l - (b - t)) / 2⌋ :=
      Int.floor_nonneg.mpr (by simp at h; linarith)
    have h3 : (0 : ℚ) ≤ ((⌊(r - l - (b - t)) / 2⌋ : ℤ) : ℚ) := by
      exact_mod_cast h2
    exact ⟨by dsimp; exact le_rfl, by dsimp; exact le_rfl,
      by dsimp; linarith, by dsimp; linarith⟩

/-- Helper: clipping a rectangle that contains a non-empty in-frame
rectangle yields an in-frame rectangle of positive width and height. -/
theorem clipRect_inFrame (width height : ℚ) (rect : ℚ × ℚ × ℚ × ℚ)
    (l t r b : ℚ)
    (hc1 : rect.1 ≤ l) (hc2 : r ≤ rect.2.2.1)
    (hc3 : rect.2.1 ≤ t) (hc4 : b ≤ rect.2.2.2)
    (h1 : 0 ≤ l) (h2 : l < r) (h3 : r ≤ width)
    (h4 : 0 ≤ t) (h5 : t < b) (h6 : b ≤ height) :
    rectInFrame width height (clipRect width height rect) := by
  unfold rectInFrame clipRect
  refine ⟨le_max_right _ _, ?_, min_le_right _ _,
    le_max_right _ _, ?_, min_le_right _ _⟩
  · dsimp
    have ha : max rect.1 0 ≤ l := max_le hc1 h1
    have hb : r ≤ min rect.2.2.1 width := le_min hc2 h3
    linarith
  · dsimp
    have ha : max rect.2.1 0 ≤ t := max_le hc3 h4
    have hb : b ≤ min rect.2.2.2 height := le_min hc4 h6
    linarith

/-- C6 counterexample: the claim fails for arbitrary rectangles: a
degenerate in-frame rectangle (zero width and height) clips to a
zero-size crop, and a rectangle lying beyond the right edge clips to a
negative-width crop. -/
theorem c6_crop_rect_counterexample :
    ¬ rectInFrame 640 480 (crop_and_resize_rect 640 480 10 20 10 20) ∧
    ¬ rectInFrame 640 480 (crop_and_resize_rect 640 480 1000 0 1100 100) := by
  unfold rectInFrame crop_and_resize_rect clipRect squareRect fdiv2
  norm_num

/-- C6 (amended): for every face rectangle of strictly positive width
and height lying within the frame bounds, the crop rectangles derived by
`crop_and_resize_tensor` and by `crop_move_face` (either head mode) lie
within the frame and keep strictly positive width and height after
clipping. -/
theorem c6_crop_rect_in_frame (width height l t r b : ℚ) (gh : Bool)
    (h1 : 0 ≤ l) (h2 : l < r) (h3 : r ≤ width)
    (h4 : 0 ≤ t) (h5 : t < b) (h6 : b ≤ height) :
    rectInFrame width height (crop_and_resize_rect width height l t r b) ∧
    rectInFrame width height (crop_move_rect width height gh l t r b) := by
  obtain ⟨s1, s2, s3, s4⟩ := squareRect_contains l t r b
  constructor
  · exact clipRect_inFrame width height _ l t r b s1 s2 s3 s4 h1 h2 h3 h4 h5 h6
  · unfold crop_move_rect
    dsimp only
    split_ifs with hgh
    · refine clipRect_inFrame width height _ l t r b ?_ ?_ ?_ ?_
        h1 h2 h3 h4 h5 h6
      · dsimp; linarith
      · dsimp; linarith
      · dsimp; linarith
      · dsimp; linarith
    · exact clipRect_inFrame width height _ l t r b s1 s2 s3 s4
        h1 h2 h3 h4 h5 h6

/-- C6 witness: the amended theorem on the rectangle `(100,100,200,150)`
in a 640 x 480 frame, with the head extension enabled. -/
theorem c6_crop_rect_witness :
    rectInFrame 640 480 (crop_and_resize_rect 640 480 100 100 200 150) ∧
    rectInFrame 640 480 (crop_move_rect 640 480 true 100 100 200 150) :=
  c6_crop_rect_in_frame 640 480 100 100 200 150 true (by norm_num)
    (by norm_num) (by norm_num) (by norm_num) (by norm_num) (by norm_num)

/-- C7: with `mask_rate = 1.0` and `use_mask_rate = 1.0` at the default
512 x 512 target, every pixel of every patch of the 16 x 16 grid is
exactly zero, for every frame, crop rectangle, resize realisation and
every outcome of the random draws (which are uniform on `[0, 1)`). -/
theorem c7_crop_move_face_full_mask
    (interp : (ℕ → ℕ → ℚ) → ℕ → ℕ → ℕ → ℕ → (ℕ → ℕ → ℚ))
    (frame : ℕ → ℕ → ℚ) (height width : ℕ)
    (crop_rect : Option (ℚ × ℚ × ℚ × ℚ)) (is_get_head : Bool)
    (curDraw : ℚ) (rectDraw : ℕ → ℕ → ℚ)
    (_hcur0 : 0 ≤ curDraw) (hcur1 : curDraw < 1)
    (hrect : ∀ i j : ℕ, 0 ≤ rectDraw i j ∧ rectDraw i j < 1) :
    ∀ (i j : Fin 16) (u v : Fin 32),
      crop_move_face interp frame height width crop_rect 512 512 1 1
        is_get_head curDraw rectDraw (32 * i + u) (32 * j + v) = 0 := by
  intro i j u v
  unfold crop_move_face
  dsimp only
  rw [if_pos ⟨one_ne_zero, hcur1⟩]
  have hi := i.isLt
  have hj := j.isLt
  have hu := u.isLt
  have hv := v.isLt
  have hmask : maskAt rectDraw 1 (512 / 16) (32 * i + u) (32 * j + v) = true := by
    simp only [maskAt, decide_eq_true_eq]
    exact ⟨i, j, (hrect i j).2, by omega, by omega, by omega, by omega⟩
  rw [if_pos ⟨hmask, by omega, by omega⟩]

/-- C7 witness: a fully concrete frame, identity resize and mid-range
draws; the pixel `(5, 5)` (patch `(0, 0)`) comes out zero. -/
theorem c7_crop_move_face_witness :
    crop_move_face (fun f _ _ _ _ => f) frameAt 64 64 none 512 512 1 1
      false (1 / 2) (fun _ _ => 1 / 2) 5 5 = 0 := by
  have h := c7_crop_move_face_full_mask (fun f _ _ _ _ => f) frameAt 64 64
    none false (1 / 2) (fun _ _ => 1 / 2) (by norm_num) (by norm_num)
    (fun _ _ => ⟨by norm_num, by norm_num⟩) 0 0 5 5
  simpa using h

/-- C8: `save_videos_grid` with `fps=None` writes at
`max(video_length // 2, 1)` frames per second (so `1` whenever
`video_length <= 1`), and a 4-frame input is written at fps 2. -/
theorem c8_save_videos_grid_default_fps :
    (∀ n, save_videos_grid_fps none n = max (n / 2) 1) ∧
    save_videos_grid_fps none 4 = 2 := by
  constructor
  · intro n
    unfold save_videos_grid_fps
    split_ifs with h
    · rw [Nat.max_eq_left (show 1 ≤ n / 2 by omega)]
    · rw [Nat.max_eq_right (show n / 2 ≤ 1 by omega)]
  · rfl

/-- C9: `crop_move_face` with `crop_rect=None` does not keep the frame:
before resizing, the built tensor keeps exactly the fixed top-left 2 x 2
window (rows 0-1, columns 0-1) of the frame and every other pixel is
zero. -/
theorem c9_crop_none_top_left (frame : ℕ → ℕ → ℚ) (height width : ℕ)
    (gh : Bool) (hh : 2 ≤ height) (hw : 2 ≤ width) :
    ∀ y x : ℕ,
      crop_move_cropped frame height width none gh y x =
        if y < 2 ∧ x < 2 then frame y x else 0 := by
  intro y x
  unfold crop_move_cropped
  dsimp only
  have h2 : sliceIdx 2 = 2 := rfl
  have h0 : sliceIdx 0 = 0 := rfl
  rw [h2, h0, Nat.min_eq_left hh, Nat.min_eq_left hw]
  exact if_congr (by omega) rfl rfl

/-- C9 witness: on a concrete 4 x 4 frame the pixel `(1, 1)` survives
and the pixel `(3, 0)` is zeroed. -/
theorem c9_crop_none_witness :
    crop_move_cropped frameAt 4 4 none false 1 1 = 11 ∧
    crop_move_cropped frameAt 4 4 none false 3 0 = 0 := by
  constructor
  · have h := c9_crop_none_top_left frameAt 4 4 false (by norm_num)
      (by norm_num) 1 1
    rw [h]
    norm_num [frameAt]
  · have h := c9_crop_none_top_left frameAt 4 4 false (by norm_num)
      (by norm_num) 3 0
    rw [h]
    norm_num

/-- C10: a detector output whose `image_ids` is non-empty but holds no
detection for frame 0 of a 2-frame batch drives `crop025_face` into the
per-frame `face_rects[0]` read on an empty list, an uncaught
`IndexError` (no center-crop fallback): the error branch is reachable. -/
theorem c10_crop025_missing_frame :
    crop025_face 2 [1] [(10, 10, 20, 20)] 640 480 true = none := by
  rfl

end MegFace
